import Mathlib

/-!
Shallow embedding of `src/TGBot.py`, a Telegram weather bot.

Modelling conventions:
* Parsed JSON values (`requests.Response.json()`) are modelled by `Json`.
  JSON numbers are modelled as integers (`Int`); none of the verified
  properties depends on decimal rendering of floats.
* Python exceptions raised while processing data are modelled by the
  `Except PyErr` monad; a `try/except KeyError` catches exactly the
  `PyErr.keyError` constructor.
* Python truthiness (`if not data:`) is modelled by `Json.falsy` /
  the `Option Json` argument of `format_weather_message`.
* `datetime.fromtimestamp(ts).strftime("%H:%M:%S")` and
  `datetime.now().strftime("%H:%M:%S")` are modelled by `fmtHMS`, which
  renders the local time of day for a Unix timestamp under a fixed local
  UTC-offset `tz` (in seconds); `datetime.now()` is modelled by passing
  the render-time Unix timestamp `now` explicitly.
* Network interaction of `requests.get` is modelled by a `FetchOutcome`
  input (network error, or an HTTP status plus the body's JSON parse
  result), and the requests a function issues are returned as a list of
  `Effect` values.
-/

namespace TGBot

/-- A parsed JSON value, as returned by `requests.Response.json()`.
Numbers are modelled as integers. -/
inductive Json where
  | null
  | bool (b : Bool)
  | num (n : Int)
  | str (s : String)
  | arr (elems : List Json)
  | obj (fields : List (String × Json))

/-- Python truthiness of a JSON value: `not data` is true exactly for
`None`, `False`, `0`, `""`, `[]` and an empty dict. -/
def Json.falsy : Json → Bool
  | .null => true
  | .bool b => !b
  | .num n => n == 0
  | .str s => s.isEmpty
  | .arr elems => elems.isEmpty
  | .obj fields => fields.isEmpty

/-- Python exceptions that the modelled code can raise or catch. -/
inductive PyErr where
  | keyError (k : String)
  | indexError
  | typeError
  | attributeError
  | requestException
  | httpError
  | jsonDecodeError
deriving DecidableEq

/-- First binding of a key in a Python dict (keys are unique in dicts
produced by JSON parsing, so first-match lookup is faithful). -/
def lookupField : List (String × Json) → String → Option Json
  | [], _ => none
  | (k, v) :: rest, key => if k == key then some v else lookupField rest key

/-- Python subscription `d[k]` with a string key: on a dict it returns the
value or raises `KeyError`; on any other JSON value it raises `TypeError`
(numbers, `None`, booleans are not subscriptable; lists and strings reject
string indices). -/
def getItem : Json → String → Except PyErr Json
  | .obj fields, k =>
    match lookupField fields k with
    | some v => .ok v
    | none => .error (.keyError k)
  | _, _ => .error .typeError

/-- Python subscription `x[i]` with a non-negative integer index: on a list
it returns the element or raises `IndexError`; on a string it returns the
one-character substring or raises `IndexError`; on a dict it raises
`KeyError` (JSON-parsed dicts have only string keys); otherwise `TypeError`. -/
def getIndex : Json → Nat → Except PyErr Json
  | .arr elems, i =>
    match elems.get? i with
    | some v => .ok v
    | none => .error .indexError
  | .str s, i =>
    match s.data.get? i with
    | some c => .ok (.str (String.mk [c]))
    | none => .error .indexError
  | .obj _, i => .error (.keyError (toString i))
  | _, _ => .error .typeError

/-- Python `d.get(k, default)`: only dicts have `.get`; any other value
raises `AttributeError`.  NOTE: in Python the `default` argument is
evaluated eagerly by the caller, so the embedding takes the already
evaluated default. -/
def pyGet : Json → String → Json → Except PyErr Json
  | .obj fields, k, dflt => .ok ((lookupField fields k).getD dflt)
  | _, _, _ => .error .attributeError

/-- Uppercasing of a single character as Python `str.upper`/`str.capitalize`
performs it, for the character ranges that occur in this program's data:
ASCII letters and Russian Cyrillic letters (U+0410..U+044F plus Ё/ё). -/
def pyToUpper (c : Char) : Char :=
  let n := c.toNat
  if 97 ≤ n ∧ n ≤ 122 then Char.ofNat (n - 32)
  else if 0x430 ≤ n ∧ n ≤ 0x44F then Char.ofNat (n - 32)
  else if n = 0x451 then Char.ofNat 0x401
  else c

/-- Lowercasing of a single character, same coverage as `pyToUpper`. -/
def pyToLower (c : Char) : Char :=
  let n := c.toNat
  if 65 ≤ n ∧ n ≤ 90 then Char.ofNat (n + 32)
  else if 0x410 ≤ n ∧ n ≤ 0x42F then Char.ofNat (n + 32)
  else if n = 0x401 then Char.ofNat 0x451
  else c

/-- Python `str.capitalize()`: the first character is uppercased and ALL
remaining characters are lowercased. -/
def pyCapitalize (s : String) : String :=
  match s.data with
  | [] => ""
  | c :: rest => String.mk (pyToUpper c :: rest.map pyToLower)

/-- Python attribute access `x.capitalize()`: only strings have it;
any other JSON value raises `AttributeError`. -/
def pyCapitalizeJ : Json → Except PyErr String
  | .str s => .ok (pyCapitalize s)
  | _ => .error .attributeError

mutual
/-- Python `repr` of a JSON value (used for values nested in containers). -/
def pyRepr : Json → String
  | .null => "None"
  | .bool true => "True"
  | .bool false => "False"
  | .num n => toString n
  | .str s => "\x27" ++ s ++ "\x27"
  | .arr elems => "[" ++ String.intercalate ", " (pyReprElems elems) ++ "]"
  | .obj fields => "\x7b" ++ String.intercalate ", " (pyReprFields fields) ++ "\x7d"

/-- Helper: `repr` of each element of a JSON array. -/
def pyReprElems : List Json → List String
  | [] => []
  | x :: xs => pyRepr x :: pyReprElems xs

/-- Helper: `repr` of each `key: value` entry of a JSON object. -/
def pyReprFields : List (String × Json) → List String
  | [] => []
  | (k, v) :: fs => ("\x27" ++ k ++ "\x27: " ++ pyRepr v) :: pyReprFields fs
end

/-- Python `str(x)` as used by f-string interpolation: a string renders as
itself (no quotes), scalars as their `str`, containers as their `repr`. -/
def pyStr : Json → String
  | .str s => s
  | .null => "None"
  | .bool true => "True"
  | .bool false => "False"
  | .num n => toString n
  | .arr elems => pyRepr (.arr elems)
  | .obj fields => pyRepr (.obj fields)

/-- Two-digit zero padding, as `strftime` does for `%H`, `%M`, `%S`. -/
def pad2 (n : Nat) : String :=
  if n < 10 then "0" ++ toString n else toString n

/-- Rendering of `datetime.fromtimestamp(ts).strftime("%H:%M:%S")`: the
local time of day of Unix timestamp `ts` under a fixed local UTC-offset
`tz` in seconds. -/
def fmtHMS (ts tz : Int) : String :=
  let t := ((ts + tz) % 86400).toNat
  pad2 (t / 3600) ++ ":" ++ pad2 (t % 3600 / 60) ++ ":" ++ pad2 (t % 60)

/-- The fixed user-facing string for an absent/falsy payload
(line 94 of `TGBot.py`). -/
def failStr : String := "❌ Не удалось получить данные о погоде. Попробуйте позже."

/-- The fixed user-facing string returned when a `KeyError` is caught
(line 120 of `TGBot.py`). -/
def procErrStr : String := "❌ Ошибка при обработке данных о погоде."

/-- The `try`-block of `format_weather_message` (lines 96-117): field
lookups in source order, then the f-string template.  Any raised
exception propagates in the `Except` monad. -/
def tryFormat (data : Json) (now tz : Int) : Except PyErr String := do
  let cityName ← getItem data "name"
  let weatherArr ← getItem data "weather"
  let weatherHead ← getIndex weatherArr 0
  let descVal ← getItem weatherHead "description"
  let weatherDesc ← pyCapitalizeJ descVal
  let mainObj ← getItem data "main"
  let temp ← getItem mainObj "temp"
  let humidity ← getItem mainObj "humidity"
  let pressureDefault ← getItem mainObj "pressure"
  let pressure ← pyGet mainObj "grnd_level" pressureDefault
  let windObj ← getItem data "wind"
  let windSpeed ← getItem windObj "speed"
  let sysObj ← getItem data "sys"
  let sunsetVal ← getItem sysObj "sunset"
  let sunsetTs ←
    match sunsetVal with
    | .num n => Except.ok n
    | .bool b => Except.ok (if b then 1 else 0)
    | _ => Except.error PyErr.typeError
  let sunsetTime := fmtHMS sunsetTs tz
  pure ("🌤 **Погода в " ++ pyStr cityName ++ "**\n\n"
    ++ "📝 **Описание:** " ++ weatherDesc ++ "\n"
    ++ "🌡 **Температура:** " ++ pyStr temp ++ " °C\n"
    ++ "💧 **Влажность:** " ++ pyStr humidity ++ "%\n"
    ++ "📊 **Давление:** " ++ pyStr pressure ++ " гПа\n"
    ++ "💨 **Скорость ветра:** " ++ pyStr windSpeed ++ " м/с\n"
    ++ "🌅 **Закат:** " ++ sunsetTime ++ "\n\n"
    ++ "🔄 Обновлено: " ++ fmtHMS now tz)

/-- Function `format_weather_message(data)` (lines 91-120).  The argument is the
value returned by `get_weather_data`: `none` models Python `None`.  A falsy
payload yields the fixed failure string; a `KeyError` inside the `try`
block is caught and yields the fixed processing-error string; any other
exception (e.g. `IndexError`) propagates to the caller. -/
def format_weather_message (data : Option Json) (now tz : Int) : Except PyErr String :=
  match data with
  | none => .ok failStr
  | some j =>
    if j.falsy then .ok failStr
    else
      match tryFormat j now tz with
      | .ok m => .ok m
      | .error (.keyError _) => .ok procErrStr
      | .error e => .error e

/-- Outcome of the single `requests.get` call: either the request itself
raises (`requests.exceptions.RequestException`: timeout, DNS failure, ...),
or a response arrives with an HTTP status code and a body whose JSON parse
either succeeds or fails. -/
inductive FetchOutcome where
  | netError
  | response (status : Nat) (body : Except Unit Json)

/-- An observable side effect of a handler: one HTTP GET request with its
query parameters. -/
inductive Effect where
  | httpGet (url : String) (query : List (String × String))

/-- The default city `DEFAULT_CITY` (line 32). -/
def DEFAULT_CITY : String := "Saint Petersburg"

/-- The weather provider endpoint (line 78). -/
def weatherURL : String := "https://api.openweathermap.org/data/2.5/weather"

/-- The query parameters of the provider call (lines 69-74). -/
def weatherQuery (apiKey city : String) : List (String × String) :=
  [("q", city), ("appid", apiKey), ("units", "metric"), ("lang", "ru")]

/-- The `try`-block of `get_weather_data` (lines 77-82): the GET call can
raise `RequestException`; `r.raise_for_status()` raises `HTTPError` exactly
for status codes 400-599; `r.json()` raises a decode error on an
unparseable body; otherwise the parsed data is returned. -/
def fetchAttempt : FetchOutcome → Except PyErr Json
  | .netError => .error .requestException
  | .response status body =>
    if 400 ≤ status ∧ status < 600 then .error .httpError
    else
      match body with
      | .ok d => .ok d
      | .error _ => .error .jsonDecodeError

/-- Function `get_weather_data(city=DEFAULT_CITY)` (lines 67-88).  `city = none`
models the caller omitting the argument, in which case Python substitutes
the default `DEFAULT_CITY`.  Both `except` clauses (`RequestException` and
the catch-all `Exception`) return `None`, so every error of the `try`
block maps to `none` and no exception escapes — the result type is
`Option Json`.  The second component is the list of HTTP requests issued:
always exactly one, regardless of the outcome (no retry). -/
def get_weather_data (apiKey : String) (city : Option String)
    (outcome : FetchOutcome) : Option Json × List Effect :=
  (match fetchAttempt outcome with
    | .ok d => some d
    | .error _ => none,
   [.httpGet weatherURL (weatherQuery apiKey (city.getD DEFAULT_CITY))])

/-- The greeting prefix built by the `/start` handler (lines 131-134). -/
def welcomeText (firstName : String) : String :=
  "Привет, " ++ firstName ++ "! 👋\n" ++ "Я бот, который показывает актуальную погоду.\n\n"

/-- The `/start` handler (lines 123-138): fetch weather for the default
city, format it, and reply with the greeting immediately followed by the
formatted weather block.  The first component is the reply text (inside
`Except` because `format_weather_message` can raise); the second is the
list of HTTP requests issued. -/
def start (firstName apiKey : String) (outcome : FetchOutcome)
    (now tz : Int) : Except PyErr String × List Effect :=
  let fetched := get_weather_data apiKey (some DEFAULT_CITY) outcome
  let weatherMessage := format_weather_message fetched.1 now tz
  (weatherMessage.map (fun m => welcomeText firstName ++ m), fetched.2)

/-- The static help text of the `/help` handler (lines 143-150; Python
concatenates the two adjacent string literals). -/
def helpText : String :=
  "📖 **Справка по командам:**\n\n"
    ++ "/start - Показать погоду в Санкт-Петербурге\n"
    ++ "/help - Показать эту справку\n"
    ++ "/weather - Показать текущую погоду\n\n"
    ++ "ℹ️ Бот автоматически показывает актуальную погоду "
    ++ "для заранее заданного города."

/-- The `/help` handler (lines 141-151): replies with the static help text
and issues no HTTP request at all. -/
def help_command : String × List Effect := (helpText, [])

/-- The `/weather` handler (lines 154-158): like `/start` but without the
greeting prefix. -/
def weather_command (apiKey : String) (outcome : FetchOutcome)
    (now tz : Int) : Except PyErr String × List Effect :=
  let fetched := get_weather_data apiKey (some DEFAULT_CITY) outcome
  (format_weather_message fetched.1 now tz, fetched.2)

/-- Error message raised when `TELEGRAM_TOKEN` is missing (line 27). -/
def tokenMissingMsg : String := "Не найден TELEGRAM_TOKEN в переменных окружения (.env)"

/-- Error message raised when `API_KEY` is missing (line 29). -/
def keyMissingMsg : String := "Не найден API_KEY в переменных окружения (.env)"

/-- Python truthiness of an `os.getenv` result: `not x` holds for a
missing variable (`None`) and for the empty string. -/
def envTruthy : Option String → Bool
  | none => false
  | some s => !s.isEmpty

/-- The startup configuration checks (lines 23-29): `ValueError` is raised
(modelled as `Except.error` with the message) before anything else runs. -/
def startupCheck (telegramToken apiKey : Option String) : Except String Unit :=
  if !envTruthy telegramToken then .error tokenMissingMsg
  else if !envTruthy apiKey then .error keyMissingMsg
  else .ok ()

/-- The state the process reaches after a successful startup. -/
inductive ProcState where
  | serving
deriving DecidableEq

/-- Process boot: the module-level configuration checks run first; only if
they pass does the process go on to build the application and enter its
serving loop (`main`, lines 184-216). -/
def boot (telegramToken apiKey : Option String) : Except String ProcState :=
  match startupCheck telegramToken apiKey with
  | .error e => .error e
  | .ok _ => .ok .serving

/-- Predicate `containsSub hay pat`: true iff `pat` occurs as a contiguous
sublist of `hay`. -/
def containsSub : List Char → List Char → Bool
  | [], pat => pat.isEmpty
  | hay@(_ :: t), pat => pat.isPrefixOf hay || containsSub t pat

/-- Substring occurrence on strings. -/
def strContains (hay pat : String) : Bool := containsSub hay.data pat.data

/-- A canonical OpenWeatherMap payload with all required fields, and the
optional `grnd_level` pressure field controlled by `grnd`. -/
def mkMain (temp humidity pressure : Int) (grnd : Option Int) : Json :=
  Json.obj ([("temp", Json.num temp), ("humidity", Json.num humidity),
             ("pressure", Json.num pressure)]
    ++ (match grnd with
        | some g => [("grnd_level", Json.num g)]
        | none => []))

/-- A complete weather payload in the provider's layout. -/
def mkPayload (cityName desc : String) (temp humidity pressure : Int)
    (grnd : Option Int) (wind sunset : Int) : Json :=
  Json.obj
    [("name", Json.str cityName),
     ("weather", Json.arr [Json.obj [("description", Json.str desc)]]),
     ("main", mkMain temp humidity pressure grnd),
     ("wind", Json.obj [("speed", Json.num wind)]),
     ("sys", Json.obj [("sunset", Json.num sunset)])]

/-! Helper lemmas about substring occurrence. -/

theorem isPrefixOf_append_self (p l : List Char) : p.isPrefixOf (p ++ l) = true := by
  induction p with
  | nil => simp
  | cons c cs ih => simp [List.isPrefixOf, ih]

theorem containsSub_nil_pat (l : List Char) : containsSub l [] = true := by
  cases l <;> simp [containsSub]

theorem containsSub_append_self (l p r : List Char) :
    containsSub (l ++ (p ++ r)) p = true := by
  induction l with
  | nil =>
    cases p with
    | nil => simpa using containsSub_nil_pat r
    | cons c cs =>
      simp only [List.nil_append]
      show containsSub ((c :: cs) ++ r) (c :: cs) = true
      simp [containsSub, isPrefixOf_append_self]
  | cons c t ih =>
    simp [containsSub, ih]

theorem strContains_welcome (n : String) : strContains (welcomeText n) n = true := by
  unfold strContains welcomeText
  simp only [String.data_append, List.append_assoc]
  exact containsSub_append_self _ _ _

/-- True exactly when the provider call fails in the sense the code checks:
the request raises, or `raise_for_status` fires (HTTP status 400-599). -/
def providerCallFailed : FetchOutcome → Bool
  | .netError => true
  | .response status _ => decide (400 ≤ status ∧ status < 600)

/-- Statement shorthand for a provider payload's `weather` array holding
one object with a description. -/
def descArr (ds : String) : Json :=
  Json.arr [Json.obj [("description", Json.str ds)]]

/-- Statement shorthand for a `main` object with all three standard fields. -/
def mainFull (t h p : Int) : Json :=
  Json.obj [("temp", Json.num t), ("humidity", Json.num h), ("pressure", Json.num p)]

/-- Statement shorthand for a `wind` object. -/
def windJ (w : Int) : Json := Json.obj [("speed", Json.num w)]

/-- Statement shorthand for a `sys` object. -/
def sysJ (s : Int) : Json := Json.obj [("sunset", Json.num s)]

/-- C1: for every payload whose `main` object contains both `grnd_level`
and `pressure`, the pressure interpolated into the formatted message is the
ground-level value; when `grnd_level` is absent, it is the standard
`pressure` value. -/
theorem c1_pressure_ground_level_preference (cn ds : String)
    (t h p g w s now tz : Int) :
    format_weather_message (some (mkPayload cn ds t h p (some g) w s)) now tz
        = .ok ("🌤 **Погода в " ++ cn ++ "**\n\n"
            ++ "📝 **Описание:** " ++ pyCapitalize ds ++ "\n"
            ++ "🌡 **Температура:** " ++ toString t ++ " °C\n"
            ++ "💧 **Влажность:** " ++ toString h ++ "%\n"
            ++ "📊 **Давление:** " ++ toString g ++ " гПа\n"
            ++ "💨 **Скорость ветра:** " ++ toString w ++ " м/с\n"
            ++ "🌅 **Закат:** " ++ fmtHMS s tz ++ "\n\n"
            ++ "🔄 Обновлено: " ++ fmtHMS now tz)
      ∧ format_weather_message (some (mkPayload cn ds t h p none w s)) now tz
        = .ok ("🌤 **Погода в " ++ cn ++ "**\n\n"
            ++ "📝 **Описание:** " ++ pyCapitalize ds ++ "\n"
            ++ "🌡 **Температура:** " ++ toString t ++ " °C\n"
            ++ "💧 **Влажность:** " ++ toString h ++ "%\n"
            ++ "📊 **Давление:** " ++ toString p ++ " гПа\n"
            ++ "💨 **Скорость ветра:** " ++ toString w ++ " м/с\n"
            ++ "🌅 **Закат:** " ++ fmtHMS s tz ++ "\n\n"
            ++ "🔄 Обновлено: " ++ fmtHMS now tz) :=
  ⟨rfl, rfl⟩

/-- C2 counterexample: a non-2xx HTTP status outside 400-599 (e.g. 304)
whose body parses as JSON is NOT mapped to `None`: `get_weather_data`
returns the parsed body, because `raise_for_status` only fires for
4xx/5xx.  This refutes the claim as stated for "every non-2xx status". -/
theorem c2_non2xx_counterexample :
    (get_weather_data "k" none
        (.response 304 (.ok (Json.obj [("cod", Json.num 304)])))).1
        = some (Json.obj [("cod", Json.num 304)])
      ∧ (get_weather_data "k" none
          (.response 304 (.ok (Json.obj [("cod", Json.num 304)])))).1 ≠ none := by
  refine ⟨rfl, ?_⟩
  intro hcontra
  rw [show (get_weather_data "k" none
      (.response 304 (.ok (Json.obj [("cod", Json.num 304)])))).1
      = some (Json.obj [("cod", Json.num 304)]) from rfl] at hcontra
  exact Option.noConfusion hcontra

/-- C2 (amended): for every provider-call failure the code actually
checks for — a network error, or an HTTP status in 400-599 — the fetch
returns `none` (and, by the catch-all `except` clauses reflected in the
`Option` result type, no exception reaches the caller), and formatting the
absent result yields the fixed failure string verbatim. -/
theorem c2_failure_yields_none (apiKey : String) (city : Option String)
    (o : FetchOutcome) (now tz : Int) (hfail : providerCallFailed o = true) :
    (get_weather_data apiKey city o).1 = none
      ∧ format_weather_message none now tz = .ok failStr := by
  refine ⟨?_, rfl⟩
  cases o with
  | netError => rfl
  | response st body =>
    have hst : 400 ≤ st ∧ st < 600 := by
      simpa [providerCallFailed] using hfail
    simp [get_weather_data, fetchAttempt, hst.1, hst.2]

/-- C2 witness: a network error concretely yields `none` and the fixed
failure string. -/
theorem c2_failure_yields_none_witness :
    (get_weather_data "k" none FetchOutcome.netError).1 = none
      ∧ format_weather_message none 0 0 = .ok failStr :=
  c2_failure_yields_none "k" none .netError 0 0 rfl

/-- C3 counterexample: a truthy payload in which the weather description
cannot be located because the `weather` array is empty makes
`format_weather_message` raise an uncaught `IndexError` (the code catches
only `KeyError`), instead of returning the processing-error string. -/
theorem c3_empty_weather_raises_counterexample :
    format_weather_message (some (Json.obj
        [("name", Json.str "X"), ("weather", Json.arr [])])) 0 0
        = .error .indexError
      ∧ (Except.error PyErr.indexError : Except PyErr String) ≠ .ok procErrStr :=
  ⟨rfl, fun hcontra => Except.noConfusion hcontra⟩

/-- C3 (amended): for every truthy payload in which a required field is
missing as a dictionary key — city name, weather description, `main.temp`,
humidity, pressure (even with `grnd_level` present, since Python evaluates
the `.get` default eagerly), wind speed, or sunset — the lookup raises
`KeyError`, which is caught, and the fixed processing-error string is
returned without an exception.  (When the `weather` array is present but
empty the failure is an `IndexError` instead, which propagates — see the
counterexample.) -/
theorem c3_missing_key_processing_error (cn ds : String)
    (t h p g w s now tz : Int) :
    format_weather_message (some (Json.obj
        [("weather", descArr ds), ("main", mainFull t h p),
         ("wind", windJ w), ("sys", sysJ s)])) now tz = .ok procErrStr
      ∧ format_weather_message (some (Json.obj
          [("name", Json.str cn), ("main", mainFull t h p),
           ("wind", windJ w), ("sys", sysJ s)])) now tz = .ok procErrStr
      ∧ format_weather_message (some (Json.obj
          [("name", Json.str cn), ("weather", Json.arr [Json.obj []]),
           ("main", mainFull t h p), ("wind", windJ w),
           ("sys", sysJ s)])) now tz = .ok procErrStr
      ∧ format_weather_message (some (Json.obj
          [("name", Json.str cn), ("weather", descArr ds),
           ("main", Json.obj [("humidity", Json.num h), ("pressure", Json.num p)]),
           ("wind", windJ w), ("sys", sysJ s)])) now tz = .ok procErrStr
      ∧ format_weather_message (some (Json.obj
          [("name", Json.str cn), ("weather", descArr ds),
           ("main", Json.obj [("temp", Json.num t), ("pressure", Json.num p)]),
           ("wind", windJ w), ("sys", sysJ s)])) now tz = .ok procErrStr
      ∧ format_weather_message (some (Json.obj
          [("name", Json.str cn), ("weather", descArr ds),
           ("main", Json.obj [("temp", Json.num t), ("humidity", Json.num h),
              ("grnd_level", Json.num g)]),
           ("wind", windJ w), ("sys", sysJ s)])) now tz = .ok procErrStr
      ∧ format_weather_message (some (Json.obj
          [("name", Json.str cn), ("weather", descArr ds),
           ("main", mainFull t h p), ("wind", Json.obj []),
           ("sys", sysJ s)])) now tz = .ok procErrStr
      ∧ format_weather_message (some (Json.obj
          [("name", Json.str cn), ("weather", descArr ds),
           ("main", mainFull t h p), ("wind", windJ w),
           ("sys", Json.obj [])])) now tz = .ok procErrStr :=
  ⟨rfl, rfl, rfl, rfl, rfl, rfl, rfl, rfl⟩

/-- C4: for every complete payload the formatted message carries the
sunset time rendered as a local HH:MM:SS string from the payload's sunset
timestamp (`fmtHMS s tz`), and a separate trailing "updated" line rendered
from the render-time clock (`fmtHMS now tz`); the equation shows the two
segments are functions of the sunset timestamp and of the render time
respectively, so they are computed independently of each other. -/
theorem c4_two_timestamps (cn ds : String) (t h p w s now tz : Int)
    (g : Option Int) :
    format_weather_message (some (mkPayload cn ds t h p g w s)) now tz
      = .ok ("🌤 **Погода в " ++ cn ++ "**\n\n"
          ++ "📝 **Описание:** " ++ pyCapitalize ds ++ "\n"
          ++ "🌡 **Температура:** " ++ toString t ++ " °C\n"
          ++ "💧 **Влажность:** " ++ toString h ++ "%\n"
          ++ "📊 **Давление:** " ++ toString (g.getD p) ++ " гПа\n"
          ++ "💨 **Скорость ветра:** " ++ toString w ++ " м/с\n"
          ++ "🌅 **Закат:** " ++ fmtHMS s tz ++ "\n\n"
          ++ "🔄 Обновлено: " ++ fmtHMS now tz) := by
  cases g <;> rfl

/-- C5 counterexample: for the description "clear SKY" the rendered
message contains "Clear sky" — Python `str.capitalize()` lowercases the
tail — and does not contain "Clear SKY", which it would have to if the
remaining characters were left unchanged as the claim states. -/
theorem c5_description_rest_changed_counterexample :
    format_weather_message (some (mkPayload "X" "clear SKY" 1 2 3 none 4 5)) 0 0
        = .ok ("🌤 **Погода в X**\n\n📝 **Описание:** Clear sky\n🌡 **Температура:** 1 °C\n💧 **Влажность:** 2%\n📊 **Давление:** 3 гПа\n💨 **Скорость ветра:** 4 м/с\n🌅 **Закат:** 00:00:05\n\n🔄 Обновлено: 00:00:00")
      ∧ strContains ("🌤 **Погода в X**\n\n📝 **Описание:** Clear sky\n🌡 **Температура:** 1 °C\n💧 **Влажность:** 2%\n📊 **Давление:** 3 гПа\n💨 **Скорость ветра:** 4 м/с\n🌅 **Закат:** 00:00:05\n\n🔄 Обновлено: 00:00:00")
          "Clear SKY" = false
      ∧ strContains ("🌤 **Погода в X**\n\n📝 **Описание:** Clear sky\n🌡 **Температура:** 1 °C\n💧 **Влажность:** 2%\n📊 **Давление:** 3 гПа\n💨 **Скорость ветра:** 4 м/с\n🌅 **Закат:** 00:00:05\n\n🔄 Обновлено: 00:00:00")
          "Clear sky" = true :=
  ⟨rfl, by decide, by decide⟩

/-- C5 (amended): the description interpolated into the message equals the
payload's description processed by Python `str.capitalize()`: the first
character is uppercased and the remaining characters are LOWERCASED (not
left unchanged). -/
theorem c5_description_capitalize_lowers_rest (cn ds : String)
    (t h p w s now tz : Int) :
    format_weather_message (some (mkPayload cn ds t h p none w s)) now tz
        = .ok ("🌤 **Погода в " ++ cn ++ "**\n\n"
            ++ "📝 **Описание:** " ++ pyCapitalize ds ++ "\n"
            ++ "🌡 **Температура:** " ++ toString t ++ " °C\n"
            ++ "💧 **Влажность:** " ++ toString h ++ "%\n"
            ++ "📊 **Давление:** " ++ toString p ++ " гПа\n"
            ++ "💨 **Скорость ветра:** " ++ toString w ++ " м/с\n"
            ++ "🌅 **Закат:** " ++ fmtHMS s tz ++ "\n\n"
            ++ "🔄 Обновлено: " ++ fmtHMS now tz)
      ∧ pyCapitalize "" = ""
      ∧ (∀ (c : Char) (rest : List Char),
          pyCapitalize (String.mk (c :: rest))
            = String.mk (pyToUpper c :: rest.map pyToLower)) :=
  ⟨rfl, rfl, fun _ _ => rfl⟩

/-- C6: the `/start` reply is exactly the personalized greeting (which
contains the sender's display name) immediately followed by the formatted
weather block; and when the fetch fails (returns `none`) the reply is
still the greeting followed by the fixed failure string. -/
theorem c6_start_greeting (firstName apiKey : String) (o : FetchOutcome)
    (now tz : Int) :
    (start firstName apiKey o now tz).1
        = (format_weather_message
            (get_weather_data apiKey (some DEFAULT_CITY) o).1 now tz).map
              (fun m => welcomeText firstName ++ m)
      ∧ strContains (welcomeText firstName) firstName = true
      ∧ ((get_weather_data apiKey (some DEFAULT_CITY) o).1 = none →
          (start firstName apiKey o now tz).1
            = .ok (welcomeText firstName ++ failStr)) := by
  refine ⟨rfl, strContains_welcome firstName, ?_⟩
  intro hnone
  simp [start, hnone, format_weather_message, Except.map]

/-- C6 witness: with a concrete name and a failing fetch, the reply is the
greeting followed by the fixed failure string. -/
theorem c6_start_greeting_witness :
    (start "Ivan" "k" FetchOutcome.netError 0 0).1
      = .ok (welcomeText "Ivan" ++ failStr) :=
  (c6_start_greeting "Ivan" "k" .netError 0 0).2.2 rfl

/-- C7: the `/help` handler issues no HTTP request at all (its effect list
is empty — the weather client is never called) and replies with the static
help text, which lists the three commands. -/
theorem c7_help_static_no_fetch :
    help_command.2 = ([] : List Effect)
      ∧ help_command.1 = helpText
      ∧ strContains helpText "/start" = true
      ∧ strContains helpText "/help" = true
      ∧ strContains helpText "/weather" = true :=
  ⟨rfl, rfl, by decide, by decide, by decide⟩

/-- C8: a missing `TELEGRAM_TOKEN` aborts startup with a message naming
`TELEGRAM_TOKEN`; with the token present and `API_KEY` missing, startup
aborts with a message naming `API_KEY`; and the process reaches its
serving loop only when both configuration values are truthy. -/
theorem c8_startup_missing_config (token key : Option String) :
    (token = none →
        boot token key = .error tokenMissingMsg
          ∧ strContains tokenMissingMsg "TELEGRAM_TOKEN" = true)
      ∧ (envTruthy token = true → key = none →
          boot token key = .error keyMissingMsg
            ∧ strContains keyMissingMsg "API_KEY" = true)
      ∧ (boot token key = .ok .serving →
          envTruthy token = true ∧ envTruthy key = true) := by
  refine ⟨?_, ?_, ?_⟩
  · rintro rfl
    exact ⟨rfl, by decide⟩
  · intro ht
    rintro rfl
    refine ⟨?_, by decide⟩
    have hk : envTruthy (none : Option String) = false := rfl
    simp [boot, startupCheck, ht, hk]
  · intro hb
    cases h1 : envTruthy token with
    | false => simp [boot, startupCheck, h1] at hb
    | true =>
      cases h2 : envTruthy key with
      | false => simp [boot, startupCheck, h1, h2] at hb
      | true => exact ⟨rfl, rfl⟩

/-- C8 witness: concrete missing-token and missing-key environments abort
with the respective messages. -/
theorem c8_startup_missing_config_witness :
    boot none (some "k") = .error tokenMissingMsg
      ∧ boot (some "t") none = .error keyMissingMsg := by
  constructor
  · exact ((c8_startup_missing_config none (some "k")).1 rfl).1
  · exact (((c8_startup_missing_config (some "t") none).2.1 (by decide)) rfl).1

/-- C9: for every city argument and every outcome, `get_weather_data`
issues exactly one GET request to the provider's current-weather endpoint
with query parameters `q` (the city), `appid` (the API key),
`units=metric` and `lang` — one request even on failure, so no retry —
and an omitted city falls back to the default "Saint Petersburg". -/
theorem c9_single_request_query (apiKey : String) (city : Option String)
    (o : FetchOutcome) :
    (get_weather_data apiKey city o).2
        = [Effect.httpGet weatherURL
            [("q", city.getD DEFAULT_CITY), ("appid", apiKey),
             ("units", "metric"), ("lang", "ru")]]
      ∧ (get_weather_data apiKey city o).2.length = 1
      ∧ (get_weather_data apiKey none o).2
          = [Effect.httpGet weatherURL
              [("q", "Saint Petersburg"), ("appid", apiKey),
               ("units", "metric"), ("lang", "ru")]] :=
  ⟨rfl, rfl, rfl⟩

/-- C10: the empty-object payload is falsy, so `format_weather_message`
returns the fixed network-failure string, which differs from the
processing-error string. -/
theorem c10_empty_payload_failure_text (now tz : Int) :
    format_weather_message (some (Json.obj [])) now tz = .ok failStr
      ∧ failStr ≠ procErrStr :=
  ⟨rfl, by decide⟩

end TGBot
